import Mathlib

/-!
Shallow embedding of `src/html/module2.py`.

The module defines two functions:

* `calc_det` builds the fixed 2x2 matrix `np.array([[1, 2], [3, 4]])`,
  computes its determinant with `np.linalg.det` and prints
  `f"Determinant is {...}"` to standard output;
* `serialize_graph` builds an rdflib `Graph`, adds the three triples
  `(alice, FOAF.name, Literal("Alice"))`, `(bob, FOAF.name, Literal("Bob"))`,
  `(alice, FOAF.knows, bob)` and returns `g.serialize()`.

The third-party libraries (numpy, rdflib) are not part of the repository;
the fragments the module calls are modelled here by their documented
contracts: the determinant is modelled exactly over the integers (the real
library returns an IEEE-754 float64 approximation of that value, which is
platform dependent and is not modelled), an rdflib graph is a duplicate-free
collection of subject/predicate/object triples, and `Graph.serialize` with
no destination returns the serialization — a `str` when `encoding` is `None`
(the default), bytes when an encoding is given — in the library's default
format, `"turtle"`.  Printing is modelled by returning the list of lines the
call writes to standard output.
-/

namespace Module2

/-! ## calc_det -/

/-- The fixed matrix `np.array([[1, 2], [3, 4]])` constructed in `calc_det`
(line 7 of the source).  It is a constant: nothing in the module ever
writes to it after construction. -/
def np_matrix : List (List Int) := [[1, 2], [3, 4]]

/-- Model of `np.linalg.det`, restricted to the 2x2 shape the program uses:
for a 2x2 matrix `[[a, b], [c, d]]` the determinant is `a*d - b*c`, computed
here exactly over the integers; any other shape is the error case
(`numpy.linalg.LinAlgError` for non-square input).  The real library returns
a float64 approximation of this exact value. -/
def np_linalg_det : List (List Int) → Except String Int
  | [[a, b], [c, d]] => .ok (a * d - b * c)
  | _ => .error "LinAlgError"

/-- The observable result of a Python call: the value it returns (or the
exception it raises, via `Except`) together with the lines it wrote to
standard output. -/
structure PyResult (α : Type) where
  value : α
  stdout : List String
deriving Repr, DecidableEq

/-- `calc_det` (source lines 6-8): computes `np.linalg.det` of `np_matrix`
and prints one line `"Determinant is <value>"`; it returns `None` (here
`Unit`).  Rendering the library's numeric result as decimal text is
environment dependent (float64 formatting), so it is abstracted by the
parameter `render`, applied to the exact determinant. -/
def calc_det (render : Int → String) : PyResult (Except String Unit) :=
  match np_linalg_det np_matrix with
  | .ok d => ⟨.ok (), ["Determinant is " ++ render d]⟩
  | .error e => ⟨.error e, []⟩

/-! ## The rdflib fragment used by serialize_graph -/

/-- An RDF node as the module builds them: a `URIRef` wrapping an IRI, or a
`Literal` with a lexical form and optional language tag and datatype
(rdflib's `Literal("Alice")` has both `None`). -/
inductive Node where
  | URIRef (iri : String)
  | Literal (lexical : String) (lang : Option String) (datatype : Option String)
deriving Repr, DecidableEq

/-- A subject/predicate/object statement. -/
abbrev Triple := Node × Node × Node

/-- An rdflib `Graph` backed by the default memory store: a duplicate-free
list of triples, in insertion order. -/
abbrev Graph := List Triple

/-- `Graph.add`: set semantics — adding a triple already in the graph is a
no-op, otherwise the triple is appended. -/
def Graph.add (g : Graph) (t : Triple) : Graph :=
  if t ∈ g then g else g ++ [t]

/-- `FOAF.name` = `http://xmlns.com/foaf/0.1/name`. -/
def FOAF_name : Node := .URIRef "http://xmlns.com/foaf/0.1/name"

/-- `FOAF.knows` = `http://xmlns.com/foaf/0.1/knows`. -/
def FOAF_knows : Node := .URIRef "http://xmlns.com/foaf/0.1/knows"

/-- `URIRef("http://example.org/alice")` (source line 14). -/
def alice : Node := .URIRef "http://example.org/alice"

/-- `URIRef("http://example.org/bob")` (source line 15). -/
def bob : Node := .URIRef "http://example.org/bob"

/-- The graph `g` as built inside `serialize_graph` (source lines 12-19):
an empty graph, then the three `g.add(...)` calls in source order. -/
def serialize_graph_g : Graph :=
  Graph.add
    (Graph.add
      (Graph.add [] (alice, FOAF_name, .Literal "Alice" none none))
      (bob, FOAF_name, .Literal "Bob" none none))
    (alice, FOAF_knows, bob)

/-! ## Serialization (model of rdflib Graph.serialize) -/

/-- A node in Turtle term syntax: IRIs in angle brackets, literals quoted,
with `@lang` / `^^<datatype>` suffixes when present.  (The lexical forms
this module uses need no escaping.) -/
def nodeTurtle : Node → String
  | .URIRef i => "<" ++ i ++ ">"
  | .Literal lex lang dt =>
    let quoted := "\"" ++ lex ++ "\""
    match lang, dt with
    | some l, _ => quoted ++ "@" ++ l
    | none, some d => quoted ++ "^^<" ++ d ++ ">"
    | none, none => quoted

/-- One Turtle statement for one triple. -/
def tripleTurtle : Triple → String
  | (s, p, o) => nodeTurtle s ++ " " ++ nodeTurtle p ++ " " ++ nodeTurtle o ++ " ."

/-- The Turtle serialization of a graph, one statement per line, ending in a
newline.  This is the simplest Turtle document for the graph (it is also
valid N-Triples); rdflib's turtle serializer additionally introduces
prefixes and groups statements by subject, a layout the specification
leaves open. -/
def graphTurtle (g : Graph) : String :=
  String.intercalate "\n" (g.map tripleTurtle) ++ "\n"

/-- rdflib's default serialization format. -/
def rdflib_default_format : String := "turtle"

/-- Model of rdflib `Graph.serialize(destination=None, format="turtle",
encoding=None)`: with no destination the serialization is returned, as a
`str` when `encoding` is `None` and as `bytes` (here the list of code
points after encoding) when an encoding is given; an unregistered format
raises `PluginException`.  Only the default format is modelled, since the
module only uses the default. -/
def Graph.serialize (g : Graph) (format : String) (encoding : Option String) :
    Except String (String ⊕ List Nat) :=
  if format = rdflib_default_format then
    match encoding with
    | none => .ok (.inl (graphTurtle g))
    | some _ => .ok (.inr ((graphTurtle g).toList.map Char.toNat))
  else
    .error "PluginException"

/-- `serialize_graph` (source lines 11-21): builds `serialize_graph_g` and
returns `g.serialize()` — all arguments left at their defaults.  It prints
nothing. -/
def serialize_graph : PyResult (Except String (String ⊕ List Nat)) :=
  ⟨Graph.serialize serialize_graph_g rdflib_default_format none, []⟩

/-! ## A parser for the emitted Turtle fragment

Any conformant RDF parser reads the document `graphTurtle` emits back to
the same triples; `parseTurtle` is that behaviour, implemented for the
fragment of the syntax the serializer above produces (one statement per
line, IRIs in angle brackets, quoted literals with optional `@lang` or
`^^<datatype>` suffix). -/

/-- The characters before the first occurrence of `c`, and the characters
after it; `none` when `c` does not occur. -/
def takeUntil (c : Char) : List Char → Option (List Char × List Char)
  | [] => none
  | x :: xs =>
    if x = c then some ([], xs)
    else
      match takeUntil c xs with
      | some (pre, post) => some (x :: pre, post)
      | none => none

/-- Parse one Turtle term (IRI or literal) from the front of the input,
returning it with the unconsumed rest. -/
def parseNode : List Char → Option (Node × List Char)
  | '<' :: rest =>
    match takeUntil '>' rest with
    | some (iri, post) => some (.URIRef (String.mk iri), post)
    | none => none
  | '"' :: rest =>
    match takeUntil '"' rest with
    | some (lex, post) =>
      match post with
      | '@' :: more =>
        some (.Literal (String.mk lex) (some (String.mk (more.takeWhile (fun ch => ch ≠ ' ')))) none,
          more.dropWhile (fun ch => ch ≠ ' '))
      | '^' :: '^' :: '<' :: more =>
        match takeUntil '>' more with
        | some (dt, post2) => some (.Literal (String.mk lex) none (some (String.mk dt)), post2)
        | none => none
      | _ => some (.Literal (String.mk lex) none none, post)
    | none => none
  | _ => none

/-- Parse one statement line `subject predicate object .`. -/
def parseStatement (cs : List Char) : Option Triple := do
  let (s, cs1) ← parseNode cs
  match cs1 with
  | ' ' :: cs2 => do
    let (p, cs3) ← parseNode cs2
    match cs3 with
    | ' ' :: cs4 => do
      let (o, cs5) ← parseNode cs4
      match cs5 with
      | [' ', '.'] => some (s, p, o)
      | _ => none
    | _ => none
  | _ => none

/-- Split a character stream at newlines (the last line needs no trailing
newline). -/
def splitLines : List Char → List (List Char)
  | [] => [[]]
  | c :: cs =>
    if c = '\n' then [] :: splitLines cs
    else
      match splitLines cs with
      | [] => [[c]]
      | l :: ls => (c :: l) :: ls

/-- Parse a Turtle document in the emitted fragment: one statement per
non-empty line. -/
def parseTurtle (s : String) : Option (List Triple) :=
  ((splitLines s.toList).filter (fun l => l ≠ [])).mapM parseStatement

/-! ## Sequential execution of the module's two functions

The module has no module-level mutable state: each call builds everything
it uses locally.  A run of the program is modelled as a sequence of calls
threading a `World` (the standard-output log, the only shared observable
state); each call yields a `Val`, the Python value it returns. -/

/-- The observable shared state: what has been printed so far. -/
structure World where
  stdout : List String
deriving Repr, DecidableEq

/-- Which of the module's two functions is invoked. -/
inductive Call where
  | report
  | serialize
deriving Repr, DecidableEq

/-- A Python-level outcome of a call: `None`, a `str`, `bytes`, or a raised
exception. -/
inductive Val where
  | unitv
  | str (s : String)
  | bytes (b : List Nat)
  | exc (e : String)
deriving Repr, DecidableEq

/-- Execute one call in a world: the value it produces and the world after
it (its printed lines appended to the log). -/
def step (render : Int → String) : Call → World → Val × World
  | .report, w =>
    (match (calc_det render).value with
      | .ok _ => .unitv
      | .error e => .exc e,
     ⟨w.stdout ++ (calc_det render).stdout⟩)
  | .serialize, w =>
    (match serialize_graph.value with
      | .ok (.inl s) => .str s
      | .ok (.inr b) => .bytes b
      | .error e => .exc e,
     ⟨w.stdout ++ serialize_graph.stdout⟩)

/-- Execute a sequence of calls, collecting each call's value. -/
def run (render : Int → String) : List Call → World → List Val × World
  | [], w => ([], w)
  | c :: cs, w =>
    let s1 := step render c w
    let rest := run render cs s1.2
    (s1.1 :: rest.1, rest.2)

/-- `true` when every literal object in the graph is a plain literal:
no language tag and no datatype. -/
def plainLiteralsOnly (g : Graph) : Bool :=
  g.all (fun t =>
    match t.2.2 with
    | .Literal _ (some _) _ => false
    | .Literal _ _ (some _) => false
    | _ => true)

/-- `true` when a serialization result is a returned text string (`str`),
not bytes and not an exception. -/
def returnsText : Except String (String ⊕ List Nat) → Bool
  | .ok (.inl _) => true
  | _ => false

/-- `true` when the string contains no newline, i.e. prints as one line. -/
def oneLine (s : String) : Bool :=
  s.toList.all (fun ch => ch ≠ '\n')

/-! ## Helper lemmas -/

theorem oneLine_append (a b : String) :
    oneLine (a ++ b) = (oneLine a && oneLine b) := by
  cases a with
  | mk la =>
    cases b with
    | mk lb => simp [oneLine, String.congr_append, String.toList, List.all_append]

theorem step_report (render : Int → String) (w : World) :
    step render Call.report w =
      (Val.unitv, ⟨w.stdout ++ ["Determinant is " ++ render (-2)]⟩) := rfl

theorem step_serialize (render : Int → String) (w : World) :
    step render Call.serialize w =
      (Val.str (graphTurtle serialize_graph_g), ⟨w.stdout ++ []⟩) := rfl

theorem run_cons (render : Int → String) (c : Call) (cs : List Call) (w : World) :
    run render (c :: cs) w =
      ((step render c w).1 :: (run render cs (step render c w).2).1,
       (run render cs (step render c w).2).2) := rfl

/-! ## The claims -/

/-- Claim C2: `serialize_graph` constructs a graph containing exactly the
three triples `(http://example.org/alice, foaf:name, "Alice")`,
`(http://example.org/bob, foaf:name, "Bob")` and
`(http://example.org/alice, foaf:knows, http://example.org/bob)`, where the
literals `"Alice"` and `"Bob"` are plain text literals with no language tag
and no datatype. -/
theorem serialize_graph_builds_exactly_the_three_triples :
    serialize_graph_g =
      [(alice, FOAF_name, Node.Literal "Alice" none none),
       (bob, FOAF_name, Node.Literal "Bob" none none),
       (alice, FOAF_knows, bob)] ∧
    plainLiteralsOnly serialize_graph_g = true :=
  ⟨by decide, by decide⟩

/-- Claim C3: the output of `serialize_graph` is the serialization of the
graph in the library's default format (turtle), and parsing that output
reconstructs exactly the three triples of the graph (parse after serialize
recovers the same triple set). -/
theorem serialize_graph_roundtrip :
    rdflib_default_format = "turtle" ∧
    serialize_graph.value = .ok (.inl (graphTurtle serialize_graph_g)) ∧
    parseTurtle (graphTurtle serialize_graph_g) = some serialize_graph_g :=
  ⟨rfl, rfl, by decide⟩

/-- Claim C4: the graph has set semantics — adding a triple that is already
present leaves the graph unchanged, for every graph reached by a sequence of
adds — so the graph `serialize_graph` builds has exactly 3 triples with no
duplicates; and the matrix of `calc_det` is the unmutated construction
`[[1, 2], [3, 4]]`. -/
theorem graph_add_set_semantics (g : Graph) (t : Triple) (h : t ∈ g) :
    Graph.add g t = g ∧
    serialize_graph_g.length = 3 ∧
    serialize_graph_g.Nodup ∧
    np_matrix = [[1, 2], [3, 4]] := by
  refine ⟨?_, by decide, by decide, rfl⟩
  unfold Graph.add
  simp [h]

theorem graph_add_set_semantics_witness :
    (alice, FOAF_knows, bob) ∈ serialize_graph_g ∧
    (Graph.add serialize_graph_g (alice, FOAF_knows, bob) = serialize_graph_g ∧
     serialize_graph_g.length = 3 ∧
     serialize_graph_g.Nodup ∧
     np_matrix = [[1, 2], [3, 4]]) :=
  ⟨by decide,
   graph_add_set_semantics serialize_graph_g (alice, FOAF_knows, bob) (by decide)⟩

/-- Claim C5: `calc_det` takes no further input and writes exactly one line
to standard output, of the form `"Determinant is <value>"` with `<value>`
the rendering of the computed determinant (-2); that line is its entire
observable output (its return value is `None`).  The hypothesis records
that the numeric rendering itself contains no newline. -/
theorem calc_det_prints_one_line (render : Int → String)
    (h : oneLine (render (-2)) = true) :
    calc_det render = ⟨.ok (), ["Determinant is " ++ render (-2)]⟩ ∧
    oneLine ("Determinant is " ++ render (-2)) = true := by
  refine ⟨rfl, ?_⟩
  rw [oneLine_append, h]
  decide

theorem calc_det_prints_one_line_witness :
    oneLine (toString (-2 : Int)) = true ∧
    (calc_det (fun d => toString d) =
        ⟨.ok (), ["Determinant is " ++ toString (-2 : Int)]⟩ ∧
     oneLine ("Determinant is " ++ toString (-2 : Int)) = true) :=
  ⟨by decide, calc_det_prints_one_line (fun d => toString d) (by decide)⟩

/-- Claim C6: `serialize_graph` has no side effect beyond its returned
value — it prints nothing, and a `serialize` step leaves the world exactly
as it was; unlike `calc_det` it returns its result (the serialization)
rather than printing it. -/
theorem serialize_graph_is_effect_free :
    serialize_graph.stdout = [] ∧
    (∀ (render : Int → String) (w : World), (step render Call.serialize w).2 = w) ∧
    serialize_graph.value = .ok (.inl (graphTurtle serialize_graph_g)) := by
  refine ⟨rfl, ?_, rfl⟩
  intro render w
  cases w with
  | mk s => simp [step_serialize]

/-- Claim C7: there is no shared or persistent state between calls: the
value a call produces does not depend on the world it runs in; two
successive `serialize` calls yield the same serialized graph twice;
`report` and `serialize` in either order produce the same individual
values, and the printed log ends the same either way. -/
theorem calls_do_not_interfere (render : Int → String) (w w2 : World) (c : Call) :
    (step render c w).1 = (step render c w2).1 ∧
    (run render [Call.serialize, Call.serialize] w).1 =
      [Val.str (graphTurtle serialize_graph_g), Val.str (graphTurtle serialize_graph_g)] ∧
    (run render [Call.report, Call.serialize] w).1 =
      [Val.unitv, Val.str (graphTurtle serialize_graph_g)] ∧
    (run render [Call.serialize, Call.report] w).1 =
      [Val.str (graphTurtle serialize_graph_g), Val.unitv] ∧
    (run render [Call.report, Call.serialize] w).2 =
      (run render [Call.serialize, Call.report] w).2 := by
  refine ⟨?_, rfl, rfl, rfl, ?_⟩
  · cases c <;> rfl
  · show (⟨(w.stdout ++ ["Determinant is " ++ render (-2)]) ++ []⟩ : World) =
      ⟨(w.stdout ++ []) ++ ["Determinant is " ++ render (-2)]⟩
    simp

/-- Claim C8: `calc_det` is idempotent: however many times it is invoked,
each invocation returns the same value (`None`, modelled `Val.unitv`) and
appends the identical determinant line, a pure function of constants. -/
theorem report_is_idempotent (render : Int → String) (w : World) (n : Nat) :
    (run render (List.replicate n Call.report) w).1 = List.replicate n Val.unitv ∧
    (run render (List.replicate n Call.report) w).2.stdout =
      w.stdout ++ List.replicate n ("Determinant is " ++ render (-2)) := by
  induction n generalizing w with
  | zero => simp [run]
  | succ k ih =>
    rw [List.replicate_succ, run_cons, step_report]
    have h := ih ⟨w.stdout ++ ["Determinant is " ++ render (-2)]⟩
    refine ⟨?_, ?_⟩
    · rw [List.replicate_succ]
      exact congrArg (Val.unitv :: ·) h.1
    · rw [h.2, List.replicate_succ]
      simp

/-- Claim C9: neither function has a reachable failure mode: the
determinant call succeeds on the fixed (square, 2x2) matrix with value -2,
`calc_det` returns normally for every rendering, and `serialize_graph`
returns its serialization normally. -/
theorem no_failure_modes :
    np_linalg_det np_matrix = .ok (-2) ∧
    (∀ render : Int → String, (calc_det render).value = .ok ()) ∧
    serialize_graph.value = .ok (.inl (graphTurtle serialize_graph_g)) :=
  ⟨rfl, fun _ => rfl, rfl⟩

/-- Claim C10: `g.serialize()` with all defaults (format `"turtle"`, no
encoding) returns text (`str`), not bytes — for every graph, and in
particular for the value `serialize_graph` returns. -/
theorem serialize_returns_text_not_bytes (g : Graph) :
    returnsText (Graph.serialize g rdflib_default_format none) = true ∧
    serialize_graph.value = Graph.serialize serialize_graph_g rdflib_default_format none ∧
    returnsText serialize_graph.value = true :=
  ⟨rfl, rfl, rfl⟩

end Module2
